import Mathlib

/-!
# Verification development for the Dbot wallet assistant

Shallow embedding of the Session-Driven Secure Transaction Orchestrator:
the credential vault (`src/utils/encryption.util.ts`), the account guard
(`ExtendedPrismaClient` custom methods), the session store
(`src/services/session.service.ts`), the wallet service
(`WalletService` in `src/models/prisma.client.js`), the transaction
service (`TransactionService`), and the send-flow handlers of
`src/controllers/webhook.controller.ts`.

Conventions of the embedding:
* JavaScript `Date` values and timestamps are integers (milliseconds).
* JavaScript `number` amounts/balances are rationals (`Rat`).
* A function that can `throw` returns `Except JsError _` (or `Option _`
  when the caller only distinguishes success from failure); `catch`
  blocks become pattern matches on that value.
* External network effects (RPC balance reads, chain broadcasts) are
  inputs to the embedded functions; the count of value-moving chain
  submissions performed is returned explicitly.
* The external CryptoJS library is modelled symbolically (see below).
-/

namespace Dbot

/-! ## JavaScript string built-ins

The JS string methods the embedded code uses, modelled over the
character list of the string (JS operates on UTF-16 code units; for the
ASCII data handled here the two views agree).  They are defined by
structural recursion on lists so that every embedded function reduces on
concrete inputs. -/

/-- `String.prototype.trim()`: strip leading and trailing whitespace. -/
def jsTrim (s : String) : String :=
  ⟨((s.data.dropWhile Char.isWhitespace).reverse.dropWhile Char.isWhitespace).reverse⟩

/-- `String.prototype.toLowerCase()` (ASCII range). -/
def jsToLower (s : String) : String :=
  ⟨s.data.map Char.toLower⟩

/-- `String.prototype.substring(0, n)`. -/
def jsTake (s : String) (n : Nat) : String :=
  ⟨s.data.take n⟩

/-- `String.prototype.substring(s.length - n)`. -/
def jsTakeRight (s : String) (n : Nat) : String :=
  ⟨s.data.drop (s.data.length - n)⟩

/-- `String.prototype.includes(needle)` on character lists. -/
def listContainsSub (hay needle : List Char) : Bool :=
  if needle.isPrefixOf hay then true
  else
    match hay with
    | [] => false
    | _ :: t => listContainsSub t needle

/-- `String.prototype.includes(needle)`. -/
def jsIncludes (s needle : String) : Bool :=
  listContainsSub s.data needle.data

/-! ## Symbolic model of the external CryptoJS library

`CryptoJS.PBKDF2` and `CryptoJS.AES` are an external dependency, not code
of this repository.  They are modelled symbolically: a derived key is
represented by the exact inputs that determine it, and an AES ciphertext
by its plaintext and the key it was encrypted under.  Decrypting with the
matching key recovers the plaintext; decrypting with any other key is a
decoding failure (`none`), which models CryptoJS producing garbage bytes
that fail UTF-8 decoding or throw.  Key collisions of the real PBKDF2 are
ignored by the model. -/

/-- Output of `CryptoJS.PBKDF2(combinedSecret, salt, ...)`, modelled as the
pair of inputs that determine it. -/
structure DerivedKey where
  secret : String
  salt : String
deriving DecidableEq

/-- Output string of `CryptoJS.AES.encrypt(plaintext, key).toString()`,
modelled as the plaintext together with the key. -/
structure CipherText where
  plaintext : String
  key : DerivedKey
deriving DecidableEq

/-- `CryptoJS.AES.decrypt(c, k)` followed by `.toString(CryptoJS.enc.Utf8)`:
with the matching key the plaintext comes back; with any other key the
UTF-8 decode fails (modelled as `none`). -/
def aesDecryptUtf8 (c : CipherText) (k : DerivedKey) : Option String :=
  if k = c.key then some c.plaintext else none

/-! ## Credential vault — `src/utils/encryption.util.ts` -/

/-- The 14 sequential PINs rejected by `isValidPin`
(`src/utils/encryption.util.ts:54`). -/
def sequentialPins : List String :=
  ["0123", "1234", "2345", "3456", "4567", "5678", "6789",
   "9876", "8765", "7654", "6543", "5432", "4321", "3210"]

/-- Semantics of the regex test `/^\d{4}$/.test(pin)`: exactly four ASCII
digit characters. -/
def isFourDigits (pin : String) : Bool :=
  pin.length = 4 && pin.data.all Char.isDigit

/-- Semantics of the regex test `/^(\d)\1{3}$/.test(pin)`: a digit followed
by three repetitions of the same character. -/
def isAllSameDigit (pin : String) : Bool :=
  match pin.data with
  | [a, b, c, d] => a.isDigit && b = a && c = a && d = a
  | _ => false

/-- `isValidPin` (`src/utils/encryption.util.ts:42-60`): exactly 4 digits,
not all the same digit, not one of the 14 sequential runs. -/
def isValidPin (pin : String) : Bool :=
  if ¬ isFourDigits pin then false
  else if isAllSameDigit pin then false
  else if sequentialPins.contains pin then false
  else true

/-- `deriveKey(pin, salt)` (`src/utils/encryption.util.ts:77-89`): PBKDF2
over the combined secret `pin + ":" + masterKey` and the salt.  The
process-wide `env.ENCRYPTION_MASTER_KEY` is threaded explicitly as
`masterKey`. -/
def deriveKey (masterKey pin salt : String) : DerivedKey :=
  ⟨pin ++ ":" ++ masterKey, salt⟩

/-- `encryptSeed(seedPhrase, pin)` (`src/utils/encryption.util.ts:97-110`).
The fresh random salt produced by `generateSalt()` is threaded explicitly
as `salt` (the source draws it from `CryptoJS.lib.WordArray.random(16)`,
a 32-character hex string, hence never empty).  `none` models the thrown
`Error` when seed phrase or PIN is falsy. -/
def encryptSeed (masterKey seedPhrase pin salt : String) :
    Option (CipherText × String) :=
  if seedPhrase = "" ∨ pin = "" then none
  else some (⟨seedPhrase, deriveKey masterKey pin salt⟩, salt)

/-- `decryptSeed(encryptedSeed, pin, salt)`
(`src/utils/encryption.util.ts:119-143`).  The `encryptedSeed` argument is
`Option CipherText`, `none` standing for the falsy (empty) ciphertext
string rejected by the first guard.  Any decryption or encoding failure,
including the caught exception path, yields `none` (the source's
`null`). -/
def decryptSeed (masterKey : String) (encryptedSeed : Option CipherText)
    (pin salt : String) : Option String :=
  match encryptedSeed with
  | none => none
  | some ct =>
    if pin = "" ∨ salt = "" then none
    else
      match aesDecryptUtf8 ct (deriveKey masterKey pin salt) with
      | none => none
      | some seedPhrase =>
        if seedPhrase = "" ∨ (jsTrim seedPhrase).length = 0 then none
        else some seedPhrase

/-! ## Account records and the account guard

The `User` row of the Prisma schema, restricted to the fields the
PIN/lockout subsystem reads, and the custom `ExtendedPrismaClient`
methods of `src/models/prisma.client` (`incrementFailedPinAttempts`,
`resetFailedPinAttempts`, `isPinLocked`).  Database state is passed
explicitly; `new Date()` is the explicit `now` argument. -/

/-- The `users` row, restricted to the fields read by the PIN-gated
paths: `id`, `pinEnabled`, the bcrypt `pinHash`, the failed-attempt
counter and the lockout timestamp. -/
structure UserRec where
  id : String
  pinEnabled : Bool
  pinHash : Option String
  failedPinAttempts : Nat
  pinLockedUntil : Option Int
deriving DecidableEq

/-- The 5-minute lockout window written by `incrementFailedPinAttempts`
(`lockUntil.setMinutes(lockUntil.getMinutes() + 5)`), in milliseconds. -/
def lockWindowMs : Int := 5 * 60 * 1000

/-- `incrementFailedPinAttempts(userId)`: increments the counter and, when
the new count reaches 3, sets `pinLockedUntil` to `now + 5 minutes`.
Returns the updated row and the new counter value. -/
def incrementFailedPinAttempts (u : UserRec) (now : Int) : UserRec × Nat :=
  let u1 : UserRec := { u with failedPinAttempts := u.failedPinAttempts + 1 }
  if u1.failedPinAttempts ≥ 3 then
    ({ u1 with pinLockedUntil := some (now + lockWindowMs) }, u1.failedPinAttempts)
  else
    (u1, u1.failedPinAttempts)

/-- `resetFailedPinAttempts(userId)`: counter to 0, lockout cleared. -/
def resetFailedPinAttempts (u : UserRec) : UserRec :=
  { u with failedPinAttempts := 0, pinLockedUntil := none }

/-- `isPinLocked(userId)`: false when no lockout is set; when the lockout
is in the past, auto-unlocks (via `resetFailedPinAttempts`) and returns
false; otherwise true.  Returns the possibly-updated row together with
the answer. -/
def isPinLocked (u : UserRec) (now : Int) : UserRec × Bool :=
  match u.pinLockedUntil with
  | none => (u, false)
  | some t => if t < now then (resetFailedPinAttempts u, false) else (u, true)

/-! ## Session store — `src/services/session.service.ts`

The `sessions` table is a list of `(phone, record)` pairs with `phone`
as uniqueness key.  The session context is the subset of the free-form
context map used by the send flow; each field is `Option`al, `none`
meaning the key is absent from the JSON object. -/

/-- Send-flow session context (`context.chain`, `context.address`,
`context.amount`, `context.tokenAddress`, `context.tokenSymbol`). -/
structure Ctx where
  chain : Option String := none
  address : Option String := none
  amount : Option Rat := none
  tokenAddress : Option String := none
  tokenSymbol : Option String := none
deriving DecidableEq

/-- JavaScript spread merge of two context objects
(`{ ...session.context, ...params.context }`): a key present in the
patch wins, an absent key keeps the stored value. -/
def mergeCtx (old patch : Ctx) : Ctx :=
  { chain := patch.chain.orElse (fun _ => old.chain),
    address := patch.address.orElse (fun _ => old.address),
    amount := patch.amount.orElse (fun _ => old.amount),
    tokenAddress := patch.tokenAddress.orElse (fun _ => old.tokenAddress),
    tokenSymbol := patch.tokenSymbol.orElse (fun _ => old.tokenSymbol) }

/-- One `sessions` row (fields read by the embedded code). -/
structure SessionRec where
  userId : Option String
  currentStep : String
  context : Ctx
  expiresAt : Int
deriving DecidableEq

/-- The `sessions` table, keyed by phone. -/
abbrev SessionDb := List (String × SessionRec)

/-- `prisma.session.findUnique({ where: { phone } })`. -/
def findUniqueSession (db : SessionDb) (phone : String) : Option SessionRec :=
  (db.find? (fun e => e.1 = phone)).map (fun e => e.2)

/-- `deleteSession(phone)`: `prisma.session.deleteMany({ where: { phone } })`
— idempotent removal of every row for that phone. -/
def deleteSession (db : SessionDb) (phone : String) : SessionDb :=
  db.filter (fun e => e.1 ≠ phone)

/-- `createSession(params)` (`session.service.ts:22-41`): computes
`expiresAt = now + expiryMinutes`, deletes any existing session for the
phone, then inserts the fresh row. -/
def createSession (db : SessionDb) (phone : String) (userId : Option String)
    (currentStep : String) (context : Ctx) (now expiryMinutes : Int) :
    SessionDb × SessionRec :=
  let expiresAt := now + expiryMinutes * 60 * 1000
  let db1 := deleteSession db phone
  let row : SessionRec := ⟨userId, currentStep, context, expiresAt⟩
  ((phone, row) :: db1, row)

/-- `getSession(phone)` (`session.service.ts:46-62`): missing row gives
`null`; an expired row (`expiresAt < now`) is deleted and gives `null`;
otherwise the row.  Returns the possibly-updated table with the answer. -/
def getSession (db : SessionDb) (phone : String) (now : Int) :
    SessionDb × Option SessionRec :=
  match findUniqueSession db phone with
  | none => (db, none)
  | some s =>
    if s.expiresAt < now then (deleteSession db phone, none)
    else (db, some s)

/-- `updateSession(phone, params)` (`session.service.ts:89-118`): reads the
live session (throwing `NotFoundError` when absent), merges the context
patch, takes the new step if given, and extends `expiresAt`.  The
`Except` carries the thrown error; the table is returned in either
case. -/
def updateSession (db : SessionDb) (phone : String) (now expiryMinutes : Int)
    (newStep : Option String) (patch : Option Ctx) :
    SessionDb × Except String SessionRec :=
  match getSession db phone now with
  | (db1, none) => (db1, .error "Session not found")
  | (db1, some s) =>
    let expiresAt := now + expiryMinutes * 60 * 1000
    let newContext := match patch with
      | some p => mergeCtx s.context p
      | none => s.context
    let s1 : SessionRec :=
      { userId := s.userId,
        currentStep := (newStep.getD s.currentStep),
        context := newContext,
        expiresAt := expiresAt }
    (db1.map (fun e => if e.1 = phone then (phone, s1) else e), .ok s1)

/-- `resetSession(phone, userId)` (`session.service.ts:152-161`): delete,
then create a fresh `IDLE` session with empty context. -/
def resetSession (db : SessionDb) (phone : String) (userId : Option String)
    (now expiryMinutes : Int) : SessionDb × SessionRec :=
  let db1 := deleteSession db phone
  createSession db1 phone userId "IDLE" {} now expiryMinutes

/-! ## Error taxonomy — `src/utils/error.util` -/

/-- The thrown error values of the transaction pipeline: the `AppError`
subclasses it uses, plus `plain` for a bare JavaScript `Error` (raised by
`normalizeChainKey` or by the external SDK). -/
inductive JsError where
  | validation (message : String)
  | invalidPin
  | insufficientBalance (required available : String)
  | transaction (message : String)
  | notFound (resource : String)
  | plain (message : String)
deriving DecidableEq

/-- `error.message` as built by each constructor in `error.util`:
`InvalidPinError` with no `attemptsRemaining` says `"Invalid PIN"`;
`InsufficientBalanceError` interpolates required and available;
`NotFoundError` appends `" not found"`. -/
def JsError.message : JsError → String
  | .validation m => m
  | .invalidPin => "Invalid PIN"
  | .insufficientBalance r a =>
      "Insufficient balance. Required: " ++ r ++ ", Available: " ++ a
  | .transaction m => m
  | .notFound r => r ++ " not found"
  | .plain m => m

/-- `error instanceof AppError`. -/
def JsError.isAppError : JsError → Bool
  | .plain _ => false
  | _ => true

/-- `getUserFriendlyErrorMessage(error)` (`error.util`): an `AppError`'s
own message is returned verbatim; otherwise the message is scanned for
known network error codes and replaced by a canned text, falling back to
a generic canned text. -/
def getUserFriendlyErrorMessage (e : JsError) : String :=
  if e.isAppError then e.message
  else if jsIncludes e.message "ECONNREFUSED" then
    "Unable to connect to the network. Please try again."
  else if jsIncludes e.message "ETIMEDOUT" then
    "Request timed out. Please try again."
  else if jsIncludes e.message "ENOTFOUND" then
    "Network error. Please check your connection."
  else "Something went wrong. Please try again."

/-! ## Chain configuration and input validation -/

/-- `normalizeChainKey(input)` (`src/config/chains.config.ts:80-115`):
trim, lowercase, alias lookup; an unknown key throws (`none`). -/
def normalizeChainKey (input : String) : Option String :=
  let normalized := jsToLower (jsTrim input)
  if normalized = "" then none
  else if normalized = "eth" ∨ normalized = "ethereum" ∨ normalized = "mainnet" then
    some "ethereum"
  else if normalized = "base" then some "base"
  else if normalized = "bsc" ∨ normalized = "binance" ∨ normalized = "bnb" then
    some "bsc"
  else if normalized = "0g" ∨ normalized = "og" ∨ normalized = "zerog" then
    some "0g"
  else if normalized = "sol" ∨ normalized = "solana" then some "solana"
  else none

/-- Base58 alphabet test (`1-9A-HJ-NP-Za-km-z`). -/
def isBase58Char (c : Char) : Bool :=
  (('1' ≤ c ∧ c ≤ '9') ∨ ('A' ≤ c ∧ c ≤ 'H') ∨ ('J' ≤ c ∧ c ≤ 'N') ∨
   ('P' ≤ c ∧ c ≤ 'Z') ∨ ('a' ≤ c ∧ c ≤ 'k') ∨ ('m' ≤ c ∧ c ≤ 'z'))

/-- `isValidSolanaAddress` delegates to the external
`new PublicKey(address)` constructor; modelled as the base58 grammar of
32-44 characters the repository itself uses for Solana addresses
(`isContractAddress` in the webhook controller). -/
def isValidSolanaAddress (address : String) : Bool :=
  address ≠ "" && 32 ≤ address.length && address.length ≤ 44 &&
    address.data.all isBase58Char

/-- Hex digit test. -/
def isHexChar (c : Char) : Bool :=
  c.isDigit ∨ ('a' ≤ c ∧ c ≤ 'f') ∨ ('A' ≤ c ∧ c ≤ 'F')

/-- `isValidEvmAddress` delegates to the external `ethers.isAddress`;
modelled as `0x` followed by 40 hex characters (the grammar the
repository itself uses in `isContractAddress`). -/
def isValidEvmAddress (address : String) : Bool :=
  address.data.take 2 = ['0', 'x'] && address.length = 42 &&
    (address.data.drop 2).all isHexChar

/-- `isValidAddress(address, chainKey)` (`validation.util`): dispatch on
the normalized chain; a normalization failure is caught and gives
false. -/
def isValidAddress (address chainKey : String) : Bool :=
  match normalizeChainKey chainKey with
  | none => false
  | some normalized =>
    if normalized = "solana" then isValidSolanaAddress address
    else isValidEvmAddress address

/-- `isValidAmount(amount)` (`validation.util`): a finite number greater
than 0 (NaN/infinity are float artifacts with no `Rat` counterpart). -/
def isValidAmount (amount : Rat) : Bool :=
  amount > 0

/-! ## Wallet service — `WalletService` in `src/models/prisma.client.js` -/

/-- One `wallets` row, restricted to the fields the pipeline reads. -/
structure WalletRec where
  chain : String
  chainKey : String
  address : String
  encryptedSeed : CipherText
  salt : String
deriving DecidableEq

/-- The decryption key chosen by both `verifyWalletPin` and
`getWalletInstance`: `pin || (user?.pinEnabled ? null : userId)` — a
truthy (present, non-empty) PIN wins; otherwise the user id when PIN is
disabled, and no key at all when PIN is enabled. -/
def decryptionKeyOf (pin : Option String) (u : UserRec) : Option String :=
  match pin with
  | some p =>
    if p ≠ "" then some p
    else if u.pinEnabled then none else some u.id
  | none => if u.pinEnabled then none else some u.id

/-- `verifyWalletPin(userId, pin?)` (`prisma.client.js`, `WalletService`):
takes the first stored wallet (`findMany take: 1`), throws `NotFound`
when there is none, computes the decryption key, returns false when
there is no key, and otherwise reports whether `decryptSeed` on that
wallet succeeded (`mnemonic !== null`). -/
def verifyWalletPin (masterKey : String) (u : UserRec)
    (wallets : List WalletRec) (pin : Option String) : Except JsError Bool :=
  match wallets with
  | [] => .error (.notFound "No wallets found")
  | w :: _ =>
    match decryptionKeyOf pin u with
    | none => .ok false
    | some k => .ok (decryptSeed masterKey (some w.encryptedSeed) k w.salt).isSome

/-- `getWalletInstance(userId, chainKey, pin?)` (`prisma.client.js`): loads
the chain's wallet with seed material, picks the decryption key, decrypts
the seed, and on success derives the signing keypair via the external
SDK (not modelled beyond success).  Both failure modes throw
`ValidationError`. -/
def getWalletInstance (masterKey : String) (u : UserRec)
    (chainWallet : WalletRec) (pin : Option String) : Except JsError Unit :=
  match decryptionKeyOf pin u with
  | none => .error (.validation "PIN required but not provided")
  | some k =>
    match decryptSeed masterKey (some chainWallet.encryptedSeed) k chainWallet.salt with
    | none => .error (.validation "Invalid PIN or decryption failed")
    | some _ => .ok ()

/-! ## Transaction service — `TransactionService`

External chain interaction is an input: `ChainEnv` carries what
`getWalletBalance` and the wallet instance's `transferNative` would
produce for this call, `TokenEnv` the analogues for `sendToken`.  A
broadcast call that throws is `Except.error` with the raw exception
message.  Each embedded operation also returns the number of value-moving
chain submissions it performed. -/

/-- Result object of the SDK's `transferNative` / `transferToken`. -/
structure TransferResult where
  success : Bool
  hash : Option String
  error : Option String
deriving DecidableEq

/-- Environment for one `sendNative` call. -/
structure ChainEnv where
  /-- `walletService.getWalletBalance(...).nativeBalance.formatted`. -/
  balanceFormatted : Rat
  /-- `walletBalance.nativeSymbol`. -/
  nativeSymbol : String
  /-- `walletBalance.address`. -/
  address : String
  /-- `walletBalance.chain` (`"SVM"` or `"EVM"`). -/
  chain : String
  /-- Outcome of the `transferNative` broadcast: `.error m` models a
  thrown exception with message `m`. -/
  transferOutcome : Except String TransferResult

/-- Environment for one `sendToken` call. -/
structure TokenEnv where
  tokenSymbol : String
  tokenDecimals : Nat
  /-- `tokenBalance.formatted`. -/
  tokenBalance : Rat
  transferOutcome : Except String TransferResult

/-- JavaScript template interpolation of a number, for `Rat`; integral
values print as in JavaScript, non-integral ones as `num/den` (the
source's decimal rendering is not reproduced). -/
def ratToString (q : Rat) : String :=
  if q.den = 1 then toString q.num
  else toString q.num ++ "/" ++ toString q.den

/-- One `transactions` row as created by `prisma.createTransaction`;
`status` gets the schema default `'PENDING'`.  The `amount` column stores
`amount.toString()`; the model keeps the rational value. -/
structure TxRecord where
  userId : String
  chain : String
  chainKey : String
  txType : String
  fromAddress : String
  toAddress : Option String
  amount : Rat
  tokenAddress : Option String
  tokenSymbol : Option String
  tokenDecimals : Option Nat
  hash : String
  note : Option String
  status : String := "PENDING"
deriving DecidableEq

/-- `TransactionService.sendNative(params)`: normalize the chain, validate
address and amount, verify the PIN via `verifyWalletPin` (throwing
`InvalidPinError` on failure), check the live native balance, build the
wallet instance (decrypting the seed), broadcast, and record the
transaction.  `wallets` is the user's wallet list read by
`verifyWalletPin`; `chainWallet` is the normalized chain's wallet read by
`getWalletInstance`.  The second component counts `transferNative`
submissions. -/
def sendNative (masterKey : String) (u : UserRec) (wallets : List WalletRec)
    (chainWallet : WalletRec) (env : ChainEnv)
    (chainKey toAddress : String) (amount : Rat) (pin : Option String) :
    Except JsError TxRecord × Nat :=
  match normalizeChainKey chainKey with
  | none => (.error (.plain ("Unsupported chain: " ++ chainKey)), 0)
  | some normalized =>
    if ¬ isValidAddress toAddress normalized then
      (.error (.validation ("Invalid " ++ normalized ++ " address")), 0)
    else if ¬ isValidAmount amount then
      (.error (.validation "Invalid amount. Must be greater than 0"), 0)
    else
      match verifyWalletPin masterKey u wallets pin with
      | .error e => (.error e, 0)
      | .ok false => (.error .invalidPin, 0)
      | .ok true =>
        if env.balanceFormatted < amount then
          (.error (.insufficientBalance
            (ratToString amount ++ " " ++ env.nativeSymbol)
            (ratToString env.balanceFormatted ++ " " ++ env.nativeSymbol)), 0)
        else
          match getWalletInstance masterKey u chainWallet pin with
          | .error e => (.error e, 0)
          | .ok _ =>
            match env.transferOutcome with
            | .error m => (.error (.transaction m), 1)
            | .ok r =>
              match r.hash with
              | none => (.error (.transaction "Transaction failed"), 1)
              | some h =>
                if ¬ r.success then (.error (.transaction "Transaction failed"), 1)
                else
                  (.ok { userId := u.id, chain := env.chain,
                         chainKey := normalized, txType := "SEND",
                         fromAddress := env.address,
                         toAddress := some toAddress, amount := amount,
                         tokenAddress := none,
                         tokenSymbol := some env.nativeSymbol,
                         tokenDecimals := none, hash := h, note := none }, 1)

/-- `TransactionService.sendToken(params)`: like `sendNative` but with a
token address; the wallet instance is built before the token balance is
read, and the balance check compares the token balance.  The second
component counts `transferToken` submissions. -/
def sendToken (masterKey : String) (u : UserRec) (wallets : List WalletRec)
    (chainWallet : WalletRec) (tenv : TokenEnv)
    (chainKey toAddress tokenAddress : String) (amount : Rat)
    (pin : Option String) : Except JsError TxRecord × Nat :=
  match normalizeChainKey chainKey with
  | none => (.error (.plain ("Unsupported chain: " ++ chainKey)), 0)
  | some normalized =>
    if ¬ isValidAddress toAddress normalized then
      (.error (.validation "Invalid recipient address"), 0)
    else if ¬ isValidAddress tokenAddress normalized then
      (.error (.validation "Invalid token address"), 0)
    else if ¬ isValidAmount amount then
      (.error (.validation "Invalid amount"), 0)
    else
      match verifyWalletPin masterKey u wallets pin with
      | .error e => (.error e, 0)
      | .ok false => (.error .invalidPin, 0)
      | .ok true =>
        match getWalletInstance masterKey u chainWallet pin with
        | .error e => (.error e, 0)
        | .ok _ =>
          if tenv.tokenBalance < amount then
            (.error (.insufficientBalance
              (ratToString amount ++ " " ++ tenv.tokenSymbol)
              (ratToString tenv.tokenBalance ++ " " ++ tenv.tokenSymbol)), 0)
          else
            match tenv.transferOutcome with
            | .error m => (.error (.transaction m), 1)
            | .ok r =>
              match r.hash with
              | none => (.error (.transaction "Token transfer failed"), 1)
              | some h =>
                if ¬ r.success then
                  (.error (.transaction "Token transfer failed"), 1)
                else
                  (.ok { userId := u.id, chain := chainWallet.chain,
                         chainKey := normalized, txType := "SEND",
                         fromAddress := chainWallet.address,
                         toAddress := some toAddress, amount := amount,
                         tokenAddress := some tokenAddress,
                         tokenSymbol := some tenv.tokenSymbol,
                         tokenDecimals := some tenv.tokenDecimals,
                         hash := h, note := none }, 1)

/-! ## Send-flow handlers — `src/controllers/webhook.controller.ts`

`handleFlowStep` dispatches on `session.currentStep`; the handlers below
are the `SEND_CRYPTO_AMOUNT` and `SEND_CRYPTO_PIN` cases.  The result of
`parseFloat(message.trim())` is an explicit `Option Rat` input (`none`
for `NaN`).  `env.SESSION_EXPIRY_MINUTES` is the explicit `expiryMinutes`
argument. -/

/-- `getNativeTokenSymbol` fallback used in `handleSendAmountStep`:
`context.tokenSymbol || (chain === 'solana' ? 'SOL' : 'ETH')`. -/
def amountStepSymbol (ctx : Ctx) : String :=
  match ctx.tokenSymbol with
  | some s => if s ≠ "" then s else (if ctx.chain = some "solana" then "SOL" else "ETH")
  | none => if ctx.chain = some "solana" then "SOL" else "ETH"

/-- The send-summary text returned by `handleSendAmountStep` on success
(`webhook.controller.ts:957-961`); `address.substring(0, 10)` and
`address.substring(address.length - 8)` shorten the address. -/
def sendSummaryText (amount : Rat) (tokenSymbol address chain : String) : String :=
  "📤 Send Summary:\n\nAmount: " ++ ratToString amount ++ " " ++ tokenSymbol ++
    "\nTo: " ++ jsTake address 10 ++ "..." ++ jsTakeRight address 8 ++
    "\nChain: " ++ chain ++
    "\n\nReply \"confirm\" to proceed or \"cancel\" to abort."

/-- `handleSendAmountStep(phone, userId, message, context)`
(`webhook.controller.ts:937-962`): re-prompts (without touching the
session) when the parsed amount is `NaN` or not positive; otherwise
stores the amount in the context, advances the step to
`SEND_CRYPTO_CONFIRM`, and returns the confirmation summary.  No balance
is read at this step.  An exception from `updateSession` propagates
(`Except.error`). -/
def handleSendAmountStep (db : SessionDb) (phone : String)
    (parsedAmount : Option Rat) (ctx : Ctx) (now expiryMinutes : Int) :
    SessionDb × Except String String :=
  match parsedAmount with
  | none => (db, .ok "Please enter a valid amount (e.g., 0.5 or 1.5)")
  | some amount =>
    if amount ≤ 0 then (db, .ok "Please enter a valid amount (e.g., 0.5 or 1.5)")
    else
      let tokenSymbol := amountStepSymbol ctx
      match updateSession db phone now expiryMinutes
          (some "SEND_CRYPTO_CONFIRM") (some { ctx with amount := some amount }) with
      | (db1, .error e) => (db1, .error e)
      | (db1, .ok _) =>
        (db1, .ok (sendSummaryText amount tokenSymbol
          (ctx.address.getD "undefined") (ctx.chain.getD "undefined")))

/-- `executeSendTransaction(userId, params)`
(`webhook.controller.ts:1021-1072`): a truthy `tokenAddress` routes to
`sendToken`, otherwise `sendNative`.  On success it formats the
confirmation text from the created record. -/
def executeSendTransaction (masterKey : String) (u : UserRec)
    (wallets : List WalletRec) (chainWallet : WalletRec)
    (env : ChainEnv) (tenv : TokenEnv)
    (chain address : String) (amount : Rat) (tokenAddress : Option String)
    (pin : String) : Except JsError TxRecord × Nat :=
  if tokenAddress.getD "" ≠ "" then
    sendToken masterKey u wallets chainWallet tenv chain address
      (tokenAddress.getD "") amount (some pin)
  else
    sendNative masterKey u wallets chainWallet env chain address amount (some pin)

/-- The success text built by `executeSendTransaction`
(`webhook.controller.ts:1063-1068`); a `null` field prints as JavaScript
template interpolation would. -/
def sendSuccessText (tx : TxRecord) : String :=
  let toShort := match tx.toAddress with
    | some a => jsTake a 10 ++ "..." ++ jsTakeRight a 8
    | none => "undefined...undefined"
  "✅ Transaction Sent!\n\nAmount: " ++ ratToString tx.amount ++ " " ++
    (tx.tokenSymbol.getD "null") ++ "\nTo: " ++ toShort ++
    "\nHash: " ++ jsTake tx.hash 20 ++ "...\nStatus: " ++ tx.status ++
    "\n\nYour transaction is being processed!"

/-- Result of one `handleSendPinStep` call: the session table, the user
row (which the handler never updates), the number of chain submissions
made, and the outbound text. -/
structure PinStepResult where
  db : SessionDb
  user : UserRec
  chainCalls : Nat
  response : String
deriving DecidableEq

/-- `handleSendPinStep(phone, userId, message, context)`
(`webhook.controller.ts:995-1016`): trims the message into a PIN and runs
`executeSendTransaction`.  On success the session is reset and the
confirmation text returned.  On ANY error — an invalid PIN included —
the session is also reset to `IDLE` with empty context and the error's
own message is echoed after `"❌ Transaction failed: "`.  The failed-PIN
counter of the account guard is never touched. -/
def handleSendPinStep (masterKey : String) (u : UserRec)
    (wallets : List WalletRec) (chainWallet : WalletRec)
    (env : ChainEnv) (tenv : TokenEnv) (db : SessionDb)
    (phone userId message : String) (ctx : Ctx) (now expiryMinutes : Int) :
    PinStepResult :=
  let pin := jsTrim message
  match executeSendTransaction masterKey u wallets chainWallet env tenv
      (ctx.chain.getD "") (ctx.address.getD "") (ctx.amount.getD 0)
      ctx.tokenAddress pin with
  | (.ok tx, k) =>
    let (db1, _) := resetSession db phone (some userId) now expiryMinutes
    ⟨db1, u, k, sendSuccessText tx⟩
  | (.error e, k) =>
    let (db1, _) := resetSession db phone (some userId) now expiryMinutes
    ⟨db1, u, k, "❌ Transaction failed: " ++ e.message⟩

/-! ## Concrete fixtures

A concrete deployment used to evaluate the embedded code: a master key,
one onboarded user with PIN `5296`, a Solana wallet whose stored
ciphertext decrypts under that PIN, and a send-flow session. -/

/-- Fixture master key (`env.ENCRYPTION_MASTER_KEY`). -/
def fixMaster : String := "master-key-fixture"

/-- Fixture wallet salt (a `generateSalt()` output). -/
def fixSalt : String := "ab12cd34ef56ab12cd34ef56ab12cd34"

/-- Fixture mnemonic. -/
def fixMnemonic : String :=
  "abandon ability able about above absent absorb abstract absurd abuse access accident"

/-- Fixture stored seed ciphertext: `encryptSeed(fixMnemonic, "5296")`
with salt `fixSalt`. -/
def fixCipher : CipherText := ⟨fixMnemonic, deriveKey fixMaster "5296" fixSalt⟩

/-- Fixture Solana wallet row. -/
def fixWallet : WalletRec :=
  ⟨"SVM", "solana", "AAAAAAAAAAAAAAAAAAAAAAAAAAAAAAAA", fixCipher, fixSalt⟩

/-- Fixture recipient address (32-character base58). -/
def fixDest : String := "BBBBBBBBBBBBBBBBBBBBBBBBBBBBBBBB"

/-- Fixture chain environment: live balance 2 SOL, broadcast succeeds. -/
def fixEnv : ChainEnv :=
  ⟨2, "SOL", fixWallet.address, "SVM",
   .ok ⟨true, some "5vJGhSzXkP1xYz9qTrW3nM8dQeRf2BcD4uHsVaKeLmNo", none⟩⟩

/-- Fixture token environment (the token branch is not exercised). -/
def fixTokenEnv : TokenEnv := ⟨"USDC", 6, 0, .error "token branch unused"⟩

/-- Fixture user whose lockout timestamp lies in the future of `now = 0`. -/
def fixLockedUser : UserRec := ⟨"u1", true, some "bcrypt-hash", 3, some 1000000⟩

/-- Fixture user with a clean guard state. -/
def fixFreshUser : UserRec := ⟨"u1", true, some "bcrypt-hash", 0, none⟩

/-- Fixture send context: chain, address and amount already collected. -/
def fixCtx : Ctx := { chain := some "solana", address := some fixDest, amount := some 1 }

/-- Fixture session table: one live session at the PIN step. -/
def fixDb : SessionDb := [("p1", ⟨some "u1", "SEND_CRYPTO_PIN", fixCtx, 999999999⟩)]

/-- Fixture chain environment whose broadcast throws a raw network
exception (what an unreachable RPC produces inside the wallet SDK). -/
def fixEnvThrow : ChainEnv :=
  ⟨2, "SOL", fixWallet.address, "SVM", .error "connect ECONNREFUSED 10.0.0.5:8545"⟩

/-- Fixture session table: one live session at the amount step with chain
and address collected. -/
def fixAmountDb : SessionDb :=
  [("p1", ⟨some "u1", "SEND_CRYPTO_AMOUNT",
    { chain := some "solana", address := some fixDest }, 999999999⟩)]

/-- The transaction row `sendNative` records for the fixture transfer of
1 SOL to `fixDest`. -/
def fixTx : TxRecord :=
  { userId := "u1", chain := "SVM", chainKey := "solana", txType := "SEND",
    fromAddress := fixWallet.address, toAddress := some fixDest, amount := 1,
    tokenAddress := none, tokenSymbol := some "SOL", tokenDecimals := none,
    hash := "5vJGhSzXkP1xYz9qTrW3nM8dQeRf2BcD4uHsVaKeLmNo", note := none }

/-- Decidable equality for `Except`, used to evaluate embedded results on
concrete inputs. -/
instance {ε α : Type} [DecidableEq ε] [DecidableEq α] : DecidableEq (Except ε α) := fun a b =>
  match a, b with
  | .ok x, .ok y =>
    if h : x = y then .isTrue (by rw [h])
    else .isFalse (fun hc => h (by cases hc; rfl))
  | .error x, .error y =>
    if h : x = y then .isTrue (by rw [h])
    else .isFalse (fun hc => h (by cases hc; rfl))
  | .ok _, .error _ => .isFalse (fun hc => Except.noConfusion hc)
  | .error _, .ok _ => .isFalse (fun hc => Except.noConfusion hc)

/-! ## Helper lemmas -/

/-- A string has length 0 exactly when it is empty. -/
theorem string_length_zero_iff (s : String) : s.length = 0 ↔ s = "" := by
  cases s with
  | mk data => simp [String.length, String.ext_iff]

/-- Appending the same suffix is right-cancellable on strings. -/
theorem string_append_cancel {a b t : String} (h : a ++ t = b ++ t) : a = b := by
  have hd := congrArg String.data h
  simp only [String.data_append] at hd
  exact String.ext (List.append_cancel_right hd)

/-- A true `isAllSameDigit` exposes the four equal characters. -/
theorem exists_of_isAllSameDigit {s : String} (h : isAllSameDigit s = true) :
    ∃ c : Char, s.data = [c, c, c, c] := by
  unfold isAllSameDigit at h
  split at h
  · next a b c d heq =>
    simp only [Bool.and_eq_true, decide_eq_true_eq] at h
    obtain ⟨⟨⟨-, hb⟩, hc⟩, hd⟩ := h
    exact ⟨a, by rw [heq, hb, hc, hd]⟩
  · exact absurd h (by simp)

/-- After rewriting a session row in place, lookup by the same phone finds
the new row. -/
theorem findUnique_after_update (db : SessionDb) (phone : String) (s1 : SessionRec)
    (h : (db.find? (fun e => e.1 = phone)).isSome) :
    findUniqueSession (db.map (fun e => if e.1 = phone then (phone, s1) else e)) phone =
      some s1 := by
  induction db with
  | nil => simp [List.find?] at h
  | cons e t ih =>
    by_cases he : e.1 = phone
    · simp [findUniqueSession, List.find?, he]
    · have h' : (t.find? (fun e => e.1 = phone)).isSome := by
        simpa [List.find?_cons, he] using h
      have := ih h'
      simp only [findUniqueSession] at this ⊢
      simpa [List.find?_cons, he] using this

/-- Lookup after `deleteSession` finds nothing. -/
theorem findUnique_after_filter (db : SessionDb) (phone : String) :
    findUniqueSession (deleteSession db phone) phone = none := by
  simp only [findUniqueSession, deleteSession, Option.map_eq_none']
  rw [List.find?_eq_none]
  intro x hx
  simp only [List.mem_filter, decide_not, Bool.not_eq_true', decide_eq_false_iff_not] at hx
  simp [hx.2]

/-! ## Claim theorems -/

/-- C8: for every string, `isValidPin` returns true iff the string is
exactly 4 ASCII digits, the 4 digits are not all equal, and the string is
not one of the 14 sequential runs; in particular `isValidPin "0000"` is
false, `isValidPin "1357"` is true, and `isValidPin "4321"` is false. -/
theorem isValidPin_grammar :
    (∀ s : String,
      isValidPin s = true ↔
        ((s.data.length = 4 ∧ ∀ c ∈ s.data, c.isDigit = true) ∧
         (¬ ∃ c : Char, s.data = [c, c, c, c]) ∧
         s ∉ sequentialPins)) ∧
    isValidPin "0000" = false ∧ isValidPin "1357" = true ∧
    isValidPin "4321" = false := by
  refine ⟨fun s => ?_, by decide, by decide, by decide⟩
  have hbool : isValidPin s =
      (isFourDigits s && !isAllSameDigit s && !sequentialPins.contains s) := by
    unfold isValidPin
    cases isFourDigits s <;> cases isAllSameDigit s <;>
      cases sequentialPins.contains s <;> rfl
  have hkey : isValidPin s = true ↔
      (isFourDigits s = true ∧ isAllSameDigit s = false ∧
        sequentialPins.contains s = false) := by
    rw [hbool]
    simp only [Bool.and_eq_true, Bool.not_eq_true']
    rw [and_assoc]
  have hfour : isFourDigits s = true ↔
      (s.data.length = 4 ∧ ∀ c ∈ s.data, c.isDigit = true) := by
    unfold isFourDigits
    rw [Bool.and_eq_true, List.all_eq_true]
    simp only [decide_eq_true_eq]
    rw [show s.length = s.data.length from rfl]
  rw [hkey, hfour]
  constructor
  · rintro ⟨hA, hB, hC⟩
    refine ⟨hA, ?_, ?_⟩
    · rintro ⟨c, hcc⟩
      have hd : c.isDigit = true := hA.2 c (by rw [hcc]; simp)
      have : isAllSameDigit s = true := by
        unfold isAllSameDigit
        rw [hcc]
        simp [hd]
      rw [this] at hB
      cases hB
    · intro hmem
      have : sequentialPins.contains s = true := by
        simpa using hmem
      rw [this] at hC
      cases hC
  · rintro ⟨hA, hB, hC⟩
    refine ⟨hA, ?_, ?_⟩
    · cases hsd : isAllSameDigit s
      · rfl
      · exact absurd (exists_of_isAllSameDigit hsd) hB
    · cases hcs : sequentialPins.contains s
      · rfl
      · exact absurd (by simpa using hcs) hC

/-- C3 counterexample: a non-empty but all-whitespace mnemonic (a single
space) encrypted under the valid PIN `5296` does NOT round-trip: the
ciphertext produced by `encryptSeed` decrypts to the original plaintext,
but `decryptSeed`'s trimmed-emptiness check rejects it and returns
`none` instead of the mnemonic. -/
theorem roundtrip_whitespace_counterexample :
    (" " : String) ≠ "" ∧ isValidPin "5296" = true ∧
    encryptSeed fixMaster " " "5296" fixSalt =
      some (⟨" ", deriveKey fixMaster "5296" fixSalt⟩, fixSalt) ∧
    decryptSeed fixMaster (some ⟨" ", deriveKey fixMaster "5296" fixSalt⟩)
      "5296" fixSalt = none := by
  refine ⟨by decide, by decide, by decide, by decide⟩

/-- C3 (amended): for every mnemonic that is non-empty after trimming
(not merely non-empty) and every valid PIN, decrypting the ciphertext
produced by `encryptSeed` with the same PIN and the salt returned by
that same call yields exactly the original mnemonic. -/
theorem encryptSeed_decryptSeed_roundtrip
    (masterKey mnemonic pin salt : String)
    (hm : jsTrim mnemonic ≠ "") (hp : isValidPin pin = true) (hs : salt ≠ "") :
    ∃ ct : CipherText,
      encryptSeed masterKey mnemonic pin salt = some (ct, salt) ∧
      decryptSeed masterKey (some ct) pin salt = some mnemonic := by
  have hpin : pin ≠ "" := by
    intro h0
    rw [h0] at hp
    exact absurd hp (by decide)
  have hmn : mnemonic ≠ "" := by
    intro h0
    rw [h0] at hm
    exact hm (by decide)
  refine ⟨⟨mnemonic, deriveKey masterKey pin salt⟩, ?_, ?_⟩
  · unfold encryptSeed
    rw [if_neg (by simp [hmn, hpin])]
  · have h1 : aesDecryptUtf8 ⟨mnemonic, deriveKey masterKey pin salt⟩
        (deriveKey masterKey pin salt) = some mnemonic := by
      unfold aesDecryptUtf8
      rw [if_pos rfl]
    simp only [decryptSeed, h1]
    rw [if_neg (by simp [hpin, hs])]
    rw [if_neg ?_]
    simp only [not_or]
    refine ⟨hmn, ?_⟩
    rw [string_length_zero_iff]
    exact hm

/-- C3 witness: the amended round trip evaluated at a concrete mnemonic,
PIN and salt. -/
theorem encryptSeed_decryptSeed_roundtrip_witness :
    ∃ ct : CipherText,
      encryptSeed fixMaster fixMnemonic "5296" fixSalt = some (ct, fixSalt) ∧
      decryptSeed fixMaster (some ct) "5296" fixSalt = some fixMnemonic :=
  encryptSeed_decryptSeed_roundtrip fixMaster fixMnemonic "5296" fixSalt
    (by decide) (by decide) (by decide)

/-- C4: for every ciphertext produced by `encryptSeed` and every PIN other
than the one used at encryption time, `decryptSeed` with the matching
salt returns `none` — the same value as every other decryption or
encoding failure (exceptions are caught inside `decryptSeed`, so the
embedded function is total and never throws). -/
theorem decryptSeed_wrong_pin_none
    (masterKey mnemonic pin salt wrongPin : String) (ct : CipherText)
    (henc : encryptSeed masterKey mnemonic pin salt = some (ct, salt))
    (hw : wrongPin ≠ pin) :
    decryptSeed masterKey (some ct) wrongPin salt = none := by
  unfold encryptSeed at henc
  by_cases hg : mnemonic = "" ∨ pin = ""
  · rw [if_pos hg] at henc
    cases henc
  · rw [if_neg hg] at henc
    simp only [Option.some.injEq, Prod.mk.injEq] at henc
    obtain ⟨hct, -⟩ := henc
    subst hct
    by_cases hw0 : wrongPin = "" ∨ salt = ""
    · simp only [decryptSeed]
      rw [if_pos hw0]
    · have hkeys : deriveKey masterKey wrongPin salt ≠ deriveKey masterKey pin salt := by
        intro he
        unfold deriveKey at he
        simp only [DerivedKey.mk.injEq] at he
        exact hw (string_append_cancel (string_append_cancel he.1))
      have h1 : aesDecryptUtf8 ⟨mnemonic, deriveKey masterKey pin salt⟩
          (deriveKey masterKey wrongPin salt) = none := by
        unfold aesDecryptUtf8
        rw [if_neg hkeys]
      simp only [decryptSeed, h1]
      rw [if_neg hw0]

/-- C4 witness: decrypting the fixture ciphertext with the wrong PIN
`1111` yields `none`. -/
theorem decryptSeed_wrong_pin_none_witness :
    decryptSeed fixMaster (some fixCipher) "1111" fixSalt = none :=
  decryptSeed_wrong_pin_none fixMaster fixMnemonic "5296" fixSalt "1111"
    fixCipher (by decide) (by decide)

/-- C5: starting from an account with failed-attempt counter 0 and no
lockout, three failed-attempt recordings make the locked check true
immediately after the third, with a lockout timestamp 5 minutes in the
future; a fourth recording (at a time no earlier than the third) does
not shorten the lockout window — it moves it to 5 minutes after the
fourth call, no earlier than before. -/
theorem lockout_after_three_failures
    (u : UserRec) (t1 t2 t3 t4 : Int)
    (h0 : u.failedPinAttempts = 0) (hl : u.pinLockedUntil = none)
    (h34 : t3 ≤ t4) :
    (isPinLocked (incrementFailedPinAttempts
        ((incrementFailedPinAttempts u t1).1) t2).1 t2).2 = false ∧
    (isPinLocked (incrementFailedPinAttempts ((incrementFailedPinAttempts
        ((incrementFailedPinAttempts u t1).1) t2).1) t3).1 t3).2 = true ∧
    (incrementFailedPinAttempts ((incrementFailedPinAttempts
        ((incrementFailedPinAttempts u t1).1) t2).1) t3).1.pinLockedUntil =
      some (t3 + lockWindowMs) ∧
    (incrementFailedPinAttempts ((incrementFailedPinAttempts
        ((incrementFailedPinAttempts ((incrementFailedPinAttempts u t1).1)
          t2).1) t3).1) t4).1.pinLockedUntil = some (t4 + lockWindowMs) ∧
    t3 + lockWindowMs ≤ t4 + lockWindowMs := by
  obtain ⟨uid, pe, ph, fa, pl⟩ := u
  simp only at h0 hl
  subst h0 hl
  have hwin : lockWindowMs = 300000 := rfl
  have hnl : ¬ (t3 + lockWindowMs < t3) := by omega
  refine ⟨rfl, ?_, rfl, rfl, by omega⟩
  show (isPinLocked ⟨uid, pe, ph, 3, some (t3 + lockWindowMs)⟩ t3).2 = true
  simp only [isPinLocked]
  rw [if_neg hnl]

/-- C5 witness: the lockout trigger evaluated on the fixture account with
failure recordings at times 0, 1, 2 and 50 ms. -/
theorem lockout_after_three_failures_witness :
    (isPinLocked (incrementFailedPinAttempts
        ((incrementFailedPinAttempts fixFreshUser 0).1) 1).1 1).2 = false ∧
    (isPinLocked (incrementFailedPinAttempts ((incrementFailedPinAttempts
        ((incrementFailedPinAttempts fixFreshUser 0).1) 1).1) 2).1 2).2 = true ∧
    (incrementFailedPinAttempts ((incrementFailedPinAttempts
        ((incrementFailedPinAttempts fixFreshUser 0).1) 1).1) 2).1.pinLockedUntil =
      some (2 + lockWindowMs) ∧
    (incrementFailedPinAttempts ((incrementFailedPinAttempts
        ((incrementFailedPinAttempts ((incrementFailedPinAttempts fixFreshUser 0).1)
          1).1) 2).1) 50).1.pinLockedUntil = some (50 + lockWindowMs) ∧
    (2 : Int) + lockWindowMs ≤ 50 + lockWindowMs :=
  lockout_after_three_failures fixFreshUser 0 1 2 50 rfl rfl (by decide)

/-- C9: for every handle whose stored session has an expiry timestamp
earlier than the current time, `getSession` returns `none` and deletes
the stored record — afterwards no session row for that handle remains. -/
theorem getSession_expired_deletes
    (db : SessionDb) (phone : String) (now : Int) (s : SessionRec)
    (hf : findUniqueSession db phone = some s) (he : s.expiresAt < now) :
    getSession db phone now = (deleteSession db phone, none) ∧
    findUniqueSession (getSession db phone now).1 phone = none ∧
    ∀ e ∈ (getSession db phone now).1, e.1 ≠ phone := by
  have h1 : getSession db phone now = (deleteSession db phone, none) := by
    simp only [getSession, hf]
    rw [if_pos he]
  refine ⟨h1, ?_, ?_⟩
  · rw [h1]
    exact findUnique_after_filter db phone
  · rw [h1]
    intro e he2
    unfold deleteSession at he2
    simp only [List.mem_filter, decide_not, Bool.not_eq_true',
      decide_eq_false_iff_not] at he2
    exact he2.2

/-- C9 witness: lazy expiry evaluated on a one-row table whose session
expired at time 5, read at time 10. -/
theorem getSession_expired_deletes_witness :
    getSession [("p1", ⟨some "u1", "IDLE", {}, 5⟩)] "p1" 10 =
      (deleteSession [("p1", ⟨some "u1", "IDLE", {}, 5⟩)] "p1", none) ∧
    findUniqueSession (getSession [("p1", ⟨some "u1", "IDLE", {}, 5⟩)] "p1" 10).1
      "p1" = none ∧
    ∀ e ∈ (getSession [("p1", ⟨some "u1", "IDLE", {}, 5⟩)] "p1" 10).1,
      e.1 ≠ "p1" :=
  getSession_expired_deletes [("p1", ⟨some "u1", "IDLE", {}, 5⟩)] "p1" 10
    ⟨some "u1", "IDLE", {}, 5⟩ (by decide) (by decide)

/-- C10: in the transaction pipeline a supplied PIN is accepted exactly
when decrypting the first stored wallet's seed ciphertext with it
succeeds; with no PIN supplied, a PIN-disabled account falls back to the
user id as decryption key and a PIN-enabled account is rejected; and the
stored bcrypt PIN hash plays no role — `verifyWalletPin` returns the
same verdict whatever `pinHash` holds. -/
theorem verifyWalletPin_decrypt_only
    (masterKey : String) (u : UserRec) (w : WalletRec) (rest : List WalletRec) :
    (∀ p : String, p ≠ "" →
      (verifyWalletPin masterKey u (w :: rest) (some p) = .ok true ↔
        (decryptSeed masterKey (some w.encryptedSeed) p w.salt).isSome = true)) ∧
    (u.pinEnabled = false →
      (verifyWalletPin masterKey u (w :: rest) none = .ok true ↔
        (decryptSeed masterKey (some w.encryptedSeed) u.id w.salt).isSome = true)) ∧
    (u.pinEnabled = true → verifyWalletPin masterKey u (w :: rest) none = .ok false) ∧
    (∀ h1 h2 : Option String, ∀ pin : Option String,
      verifyWalletPin masterKey { u with pinHash := h1 } (w :: rest) pin =
        verifyWalletPin masterKey { u with pinHash := h2 } (w :: rest) pin) := by
  refine ⟨?_, ?_, ?_, ?_⟩
  · intro p hp
    have hred : verifyWalletPin masterKey u (w :: rest) (some p) =
        .ok (decryptSeed masterKey (some w.encryptedSeed) p w.salt).isSome := by
      simp only [verifyWalletPin, decryptionKeyOf]
      rw [if_pos hp]
    rw [hred]
    constructor
    · intro h
      simpa using Except.ok.inj h
    · intro h
      rw [h]
  · intro hpe
    have hred : verifyWalletPin masterKey u (w :: rest) none =
        .ok (decryptSeed masterKey (some w.encryptedSeed) u.id w.salt).isSome := by
      simp [verifyWalletPin, decryptionKeyOf, hpe]
    rw [hred]
    constructor
    · intro h
      simpa using Except.ok.inj h
    · intro h
      rw [h]
  · intro hpe
    simp [verifyWalletPin, decryptionKeyOf, hpe]
  · intro h1 h2 pin
    cases pin <;> rfl

/-- C10 witness: the fixture wallet accepts PIN `5296` and rejects
`1111`, independently of the stored bcrypt hash. -/
theorem verifyWalletPin_decrypt_only_witness :
    verifyWalletPin fixMaster fixFreshUser [fixWallet] (some "5296") = .ok true ∧
    verifyWalletPin fixMaster { fixFreshUser with pinHash := none } [fixWallet]
        (some "1111") =
      verifyWalletPin fixMaster { fixFreshUser with pinHash := some "other" }
        [fixWallet] (some "1111") := by
  constructor
  · exact ((verifyWalletPin_decrypt_only fixMaster fixFreshUser fixWallet []).1
      "5296" (by decide)).mpr (by decide)
  · exact (verifyWalletPin_decrypt_only fixMaster fixFreshUser fixWallet []).2.2.2
      none (some "other") (some "1111")

/-- C1 (evaluation at the failing input): the fixture account is locked at
time 0 by the guard's own check, yet `sendNative` with the correct PIN
runs to completion: it verifies the PIN, performs exactly one chain
submission, and records the transaction — no `isPinLocked` call occurs
anywhere on the path and no "locked" signal is produced.  The claim's
required behaviour (immediate locked failure, no chain call) does not
hold on the code. -/
theorem sendNative_ignores_lockout :
    (isPinLocked fixLockedUser 0).2 = true ∧
    verifyWalletPin fixMaster fixLockedUser [fixWallet] (some "5296") = .ok true ∧
    sendNative fixMaster fixLockedUser [fixWallet] fixWallet fixEnv "solana"
      fixDest 1 (some "5296") = (.ok fixTx, 1) := by
  refine ⟨by decide, by decide, by decide⟩

/-- C2 (evaluation at the failing input): a wrong PIN at the
`SEND_CRYPTO_PIN` step makes `handleSendPinStep` reset the session to
`IDLE` with EMPTY context (the collected chain, address and amount are
discarded), return a terminal failure text, and leave the account's
failed-attempt counter untouched — `incrementFailedPinAttempts` is never
called.  The claim's required behaviour (record the failure, stay at the
PIN step, keep the context) does not hold on the code. -/
theorem handleSendPinStep_wrong_pin_resets :
    fixDb = [("p1", ⟨some "u1", "SEND_CRYPTO_PIN", fixCtx, 999999999⟩)] ∧
    handleSendPinStep fixMaster fixFreshUser [fixWallet] fixWallet fixEnv
      fixTokenEnv fixDb "p1" "u1" "1111" fixCtx 0 30 =
      ⟨[("p1", ⟨some "u1", "IDLE", {}, 1800000⟩)], fixFreshUser, 0,
       "❌ Transaction failed: Invalid PIN"⟩ ∧
    fixFreshUser.failedPinAttempts = 0 := by
  refine ⟨by decide, by decide, by decide⟩

/-- C6 counterexample: with a live balance of 2 SOL (recorded in
`fixEnv`, which the amount handler does not even receive), the amount
`5` at the `SEND_CRYPTO_AMOUNT` step is NOT rejected: the session
advances to `SEND_CRYPTO_CONFIRM` and the confirmation summary is
returned, contradicting the claim that the step rejects over-balance
amounts and stays put. -/
theorem amount_step_over_balance_advances :
    fixEnv.balanceFormatted = 2 ∧
    handleSendAmountStep fixAmountDb "p1" (some 5)
      { chain := some "solana", address := some fixDest } 0 30 =
      ([("p1", ⟨some "u1", "SEND_CRYPTO_CONFIRM",
         { chain := some "solana", address := some fixDest, amount := some 5 },
         1800000⟩)],
       .ok (sendSummaryText 5 "SOL" fixDest "solana")) := by
  refine ⟨by decide, by decide⟩

/-- C6 (amended): the amount step validates only that the input parses to
a positive number — any such amount, over-balance or not, is written to
the context and the session advances to `SEND_CRYPTO_CONFIRM` (the
handler reads no balance); the insufficient-balance rejection happens
only later, in `sendNative` at PIN time, which throws
`InsufficientBalanceError` before any chain submission. -/
theorem amount_step_defers_balance_check :
    (∀ (db : SessionDb) (phone : String) (s : SessionRec) (ctx : Ctx)
        (now em : Int) (amount : Rat),
      findUniqueSession db phone = some s → ¬ s.expiresAt < now → 0 < amount →
      handleSendAmountStep db phone (some amount) ctx now em =
        (db.map (fun e => if e.1 = phone then
            (phone, ⟨s.userId, "SEND_CRYPTO_CONFIRM",
              mergeCtx s.context { ctx with amount := some amount },
              now + em * 60 * 1000⟩) else e),
         .ok (sendSummaryText amount (amountStepSymbol ctx)
           (ctx.address.getD "undefined") (ctx.chain.getD "undefined"))) ∧
      (findUniqueSession
          (handleSendAmountStep db phone (some amount) ctx now em).1 phone).map
        SessionRec.currentStep = some "SEND_CRYPTO_CONFIRM") ∧
    (∀ (masterKey : String) (u : UserRec) (wallets : List WalletRec)
        (cw : WalletRec) (env : ChainEnv) (ck toA n : String)
        (amount : Rat) (pin : Option String),
      normalizeChainKey ck = some n → isValidAddress toA n = true →
      0 < amount → verifyWalletPin masterKey u wallets pin = .ok true →
      env.balanceFormatted < amount →
      sendNative masterKey u wallets cw env ck toA amount pin =
        (.error (.insufficientBalance
          (ratToString amount ++ " " ++ env.nativeSymbol)
          (ratToString env.balanceFormatted ++ " " ++ env.nativeSymbol)), 0)) := by
  constructor
  · intro db phone s ctx now em amount hf hexp hpos
    have hgs : getSession db phone now = (db, some s) := by
      simp only [getSession, hf]
      rw [if_neg hexp]
    have hupd : updateSession db phone now em (some "SEND_CRYPTO_CONFIRM")
        (some { ctx with amount := some amount }) =
        (db.map (fun e => if e.1 = phone then
            (phone, ⟨s.userId, "SEND_CRYPTO_CONFIRM",
              mergeCtx s.context { ctx with amount := some amount },
              now + em * 60 * 1000⟩) else e),
         .ok ⟨s.userId, "SEND_CRYPTO_CONFIRM",
              mergeCtx s.context { ctx with amount := some amount },
              now + em * 60 * 1000⟩) := by
      simp only [updateSession, hgs]
      rfl
    have hmain : handleSendAmountStep db phone (some amount) ctx now em =
        (db.map (fun e => if e.1 = phone then
            (phone, ⟨s.userId, "SEND_CRYPTO_CONFIRM",
              mergeCtx s.context { ctx with amount := some amount },
              now + em * 60 * 1000⟩) else e),
         .ok (sendSummaryText amount (amountStepSymbol ctx)
           (ctx.address.getD "undefined") (ctx.chain.getD "undefined"))) := by
      simp only [handleSendAmountStep]
      rw [if_neg (not_le.mpr hpos)]
      simp only [hupd]
    refine ⟨hmain, ?_⟩
    rw [hmain]
    have hsome : (db.find? (fun e => e.1 = phone)).isSome := by
      simp only [findUniqueSession, Option.map_eq_some'] at hf
      obtain ⟨e, he, -⟩ := hf
      simp [he]
    rw [findUnique_after_update db phone _ hsome]
    rfl
  · intro masterKey u wallets cw env ck toA n amount pin hn ha hpos hv hb
    have hva : isValidAmount amount = true := by
      simp [isValidAmount, hpos]
    simp only [sendNative, hn]
    rw [if_neg (by simp [ha])]
    rw [if_neg (by simp [hva])]
    simp only [hv]
    rw [if_pos hb]

/-- C6 witness: the amended behaviour evaluated at the fixtures — amount
5 advances the session, and `sendNative` against the live balance 2
rejects it with the balance error and zero chain submissions. -/
theorem amount_step_defers_balance_check_witness :
    (findUniqueSession (handleSendAmountStep fixAmountDb "p1" (some 5)
        { chain := some "solana", address := some fixDest } 0 30).1 "p1").map
      SessionRec.currentStep = some "SEND_CRYPTO_CONFIRM" ∧
    sendNative fixMaster fixFreshUser [fixWallet] fixWallet fixEnv "solana"
        fixDest 5 (some "5296") =
      (.error (.insufficientBalance (ratToString 5 ++ " " ++ fixEnv.nativeSymbol)
        (ratToString fixEnv.balanceFormatted ++ " " ++ fixEnv.nativeSymbol)), 0) := by
  constructor
  · exact (amount_step_defers_balance_check.1 fixAmountDb "p1"
      ⟨some "u1", "SEND_CRYPTO_AMOUNT",
        { chain := some "solana", address := some fixDest }, 999999999⟩
      { chain := some "solana", address := some fixDest } 0 30 5
      (by decide) (by decide) (by decide)).2
  · exact amount_step_defers_balance_check.2 fixMaster fixFreshUser [fixWallet]
      fixWallet fixEnv "solana" fixDest "solana" 5 (some "5296")
      (by decide) (by decide) (by decide) (by decide) (by decide)

/-- C7 counterexample: a broadcast exception with raw network text
terminates the flow (session reset to `IDLE`), and the raw exception
text is echoed verbatim in the outbound message — contradicting the
claim that raw exception text never appears in any outbound message. -/
theorem pin_step_echoes_raw_error :
    (handleSendPinStep fixMaster fixFreshUser [fixWallet] fixWallet fixEnvThrow
      fixTokenEnv fixDb "p1" "u1" "5296" fixCtx 0 30).response =
      "❌ Transaction failed: connect ECONNREFUSED 10.0.0.5:8545" ∧
    (handleSendPinStep fixMaster fixFreshUser [fixWallet] fixWallet fixEnvThrow
      fixTokenEnv fixDb "p1" "u1" "5296" fixCtx 0 30).chainCalls = 1 ∧
    findUniqueSession (handleSendPinStep fixMaster fixFreshUser [fixWallet]
      fixWallet fixEnvThrow fixTokenEnv fixDb "p1" "u1" "5296" fixCtx 0
      30).db "p1" = some ⟨some "u1", "IDLE", {}, 1800000⟩ := by
  refine ⟨by decide, by decide, by decide⟩

/-- C7 (amended): only errors that escape to the top-level webhook
handler are sanitized — `getUserFriendlyErrorMessage` maps any
non-`AppError` to one of four fixed canned texts and returns an
`AppError`'s own message verbatim; an error terminating the send flow
inside `handleSendPinStep` is instead echoed as
`"❌ Transaction failed: "` followed by the error's raw message, so raw
exception text can reach the user from that path. -/
theorem flow_errors_echo_top_level_sanitizes :
    (∀ m : String, getUserFriendlyErrorMessage (.plain m) ∈
      (["Unable to connect to the network. Please try again.",
        "Request timed out. Please try again.",
        "Network error. Please check your connection.",
        "Something went wrong. Please try again."] : List String)) ∧
    (∀ e : JsError, e.isAppError = true →
      getUserFriendlyErrorMessage e = e.message) ∧
    (∀ (masterKey : String) (u : UserRec) (wallets : List WalletRec)
        (cw : WalletRec) (env : ChainEnv) (tenv : TokenEnv) (db : SessionDb)
        (phone uid msg : String) (ctx : Ctx) (now em : Int) (e : JsError)
        (k : Nat),
      executeSendTransaction masterKey u wallets cw env tenv
          (ctx.chain.getD "") (ctx.address.getD "") (ctx.amount.getD 0)
          ctx.tokenAddress (jsTrim msg) = (.error e, k) →
      (handleSendPinStep masterKey u wallets cw env tenv db phone uid msg
          ctx now em).response = "❌ Transaction failed: " ++ e.message ∧
      findUniqueSession (handleSendPinStep masterKey u wallets cw env tenv db
          phone uid msg ctx now em).db phone =
        some ⟨some uid, "IDLE", {}, now + em * 60 * 1000⟩) := by
  refine ⟨?_, ?_, ?_⟩
  · intro m
    show (if jsIncludes m "ECONNREFUSED" = true then
        "Unable to connect to the network. Please try again."
      else if jsIncludes m "ETIMEDOUT" = true then
        "Request timed out. Please try again."
      else if jsIncludes m "ENOTFOUND" = true then
        "Network error. Please check your connection."
      else "Something went wrong. Please try again.") ∈ _
    split_ifs <;> simp
  · intro e he
    unfold getUserFriendlyErrorMessage
    rw [he]
    simp
  · intro masterKey u wallets cw env tenv db phone uid msg ctx now em e k hexec
    have hred : handleSendPinStep masterKey u wallets cw env tenv db phone uid
        msg ctx now em =
        ⟨((phone, ⟨some uid, "IDLE", {}, now + em * 60 * 1000⟩) ::
            deleteSession (deleteSession db phone) phone), u, k,
         "❌ Transaction failed: " ++ e.message⟩ := by
      simp only [handleSendPinStep, hexec, resetSession, createSession]
    rw [hred]
    refine ⟨rfl, ?_⟩
    simp [findUniqueSession, List.find?]

/-- C7 witness: the amended behaviour evaluated at the fixtures — a raw
network error is canned at the top level, an `AppError` passes through
verbatim, and the fixture broadcast exception is echoed raw by the
send-flow PIN handler. -/
theorem flow_errors_echo_top_level_sanitizes_witness :
    getUserFriendlyErrorMessage (.plain "connect ECONNREFUSED 10.0.0.5:8545") ∈
      (["Unable to connect to the network. Please try again.",
        "Request timed out. Please try again.",
        "Network error. Please check your connection.",
        "Something went wrong. Please try again."] : List String) ∧
    getUserFriendlyErrorMessage .invalidPin = JsError.message .invalidPin ∧
    (handleSendPinStep fixMaster fixFreshUser [fixWallet] fixWallet fixEnvThrow
        fixTokenEnv fixDb "p1" "u1" "5296" fixCtx 0 30).response =
      "❌ Transaction failed: " ++
        JsError.message (.transaction "connect ECONNREFUSED 10.0.0.5:8545") := by
  refine ⟨?_, ?_, ?_⟩
  · exact flow_errors_echo_top_level_sanitizes.1 "connect ECONNREFUSED 10.0.0.5:8545"
  · exact flow_errors_echo_top_level_sanitizes.2.1 .invalidPin rfl
  · exact (flow_errors_echo_top_level_sanitizes.2.2 fixMaster fixFreshUser
      [fixWallet] fixWallet fixEnvThrow fixTokenEnv fixDb "p1" "u1" "5296"
      fixCtx 0 30 (.transaction "connect ECONNREFUSED 10.0.0.5:8545") 1
      (by decide)).1

end Dbot
